import Mathlib

/-!
Verification development for the opencis CXL emulator core.

Shallow embedding, in Lean, of the components the checked properties are
about:

* `src/opencis/cxl/component/hdm_decoder.py` — HDM decoders and their
  managers (device and switch flavours);
* `src/opencis/cxl/component/root_complex/home_agent.py` — the home agent's
  M2S translation table, the BISnp/BIRsp state machine and the CXL.mem
  read/write paths;
* `src/opencis/cxl/component/cxl_packet_processor.py` — the TLP
  transaction-id table and CXL.io demultiplexing;
* `src/opencis/cxl/component/switch_connection_manager.py` — the sideband
  connection handshake;
* `src/opencis/cxl/component/root_complex/memory_controller.py` — the
  file-backed memory request loop.

Python integers are modelled as `Nat` where the source only ever holds
non-negative values, and as `Int` where sign matters (list indices).
Python list subscription is modelled with its real semantics (negative
indices wrap, out-of-range raises); a raised exception is an `Except.error`
or an `Option.none`, as noted at each definition.
-/

namespace OpenCis

/-! ## HDM decoder (src/opencis/cxl/component/hdm_decoder.py) -/

/-- Enum `HDM_DECODER_COUNT` (register encoding of the decoder count). -/
inductive HDM_DECODER_COUNT where
  | DECODER_1 | DECODER_2 | DECODER_4 | DECODER_6 | DECODER_8 | DECODER_10
  | DECODER_12 | DECODER_14 | DECODER_16 | DECODER_20 | DECODER_24
  | DECODER_28 | DECODER_32
  deriving DecidableEq, Repr

/-- IntEnum value of `HDM_DECODER_COUNT`. -/
def HDM_DECODER_COUNT.val : HDM_DECODER_COUNT → Nat
  | .DECODER_1 => 0x0 | .DECODER_2 => 0x1 | .DECODER_4 => 0x2
  | .DECODER_6 => 0x3 | .DECODER_8 => 0x4 | .DECODER_10 => 0x5
  | .DECODER_12 => 0x6 | .DECODER_14 => 0x7 | .DECODER_16 => 0x8
  | .DECODER_20 => 0x9 | .DECODER_24 => 0xA | .DECODER_28 => 0xB
  | .DECODER_32 => 0xC

/-- Enum `INTERLEAVE_GRANULARITY`. -/
inductive INTERLEAVE_GRANULARITY where
  | SIZE_256B | SIZE_512B | SIZE_1KB | SIZE_2KB | SIZE_4KB | SIZE_8KB
  | SIZE_16KB
  deriving DecidableEq, Repr

/-- IntEnum value of `INTERLEAVE_GRANULARITY`. -/
def INTERLEAVE_GRANULARITY.val : INTERLEAVE_GRANULARITY → Nat
  | .SIZE_256B => 0x0 | .SIZE_512B => 0x1 | .SIZE_1KB => 0x2
  | .SIZE_2KB => 0x3 | .SIZE_4KB => 0x4 | .SIZE_8KB => 0x5
  | .SIZE_16KB => 0x6

/-- Enum `INTERLEAVE_WAYS` (register encodings: the powers of two are
0x0–0x4, the 3/6/12-way encodings are 0x8–0xA). -/
inductive INTERLEAVE_WAYS where
  | WAY_1 | WAY_2 | WAY_4 | WAY_8 | WAY_16 | WAY_3 | WAY_6 | WAY_12
  deriving DecidableEq, Repr

/-- IntEnum value of `INTERLEAVE_WAYS`. -/
def INTERLEAVE_WAYS.val : INTERLEAVE_WAYS → Nat
  | .WAY_1 => 0x0 | .WAY_2 => 0x1 | .WAY_4 => 0x2 | .WAY_8 => 0x3
  | .WAY_16 => 0x4 | .WAY_3 => 0x8 | .WAY_6 => 0x9 | .WAY_12 => 0xA

/-- `IW_TO_WAYS.calc`: the number of interleave ways named by the
`INTERLEAVE_WAYS` member (the integer suffix of the member name). -/
def IW_TO_WAYS.calc : INTERLEAVE_WAYS → Nat
  | .WAY_1 => 1 | .WAY_2 => 2 | .WAY_4 => 4 | .WAY_8 => 8
  | .WAY_16 => 16 | .WAY_3 => 3 | .WAY_6 => 6 | .WAY_12 => 12

/-- Dataclass `DeviceHdmDecoder` (the `HdmDecoderBase` fields flattened in). -/
structure DeviceHdmDecoder where
  index : Nat
  size : Nat
  base : Nat
  ig : INTERLEAVE_GRANULARITY
  iw : INTERLEAVE_WAYS
  dpa_base : Nat
  dpa_skip : Nat
  deriving DecidableEq, Repr

/-- Dataclass `SwitchHdmDecoder` (the `HdmDecoderBase` fields flattened in). -/
structure SwitchHdmDecoder where
  index : Nat
  size : Nat
  base : Nat
  ig : INTERLEAVE_GRANULARITY
  iw : INTERLEAVE_WAYS
  target_ports : List Nat
  deriving DecidableEq, Repr

/-- `HdmDecoderBase.is_hpa_in_range`: `self.base <= hpa < self.base + self.size`. -/
def DeviceHdmDecoder.is_hpa_in_range (self : DeviceHdmDecoder) (hpa : Nat) : Bool :=
  decide (self.base ≤ hpa) && decide (hpa < self.base + self.size)

/-- `HdmDecoderBase.is_hpa_in_range` for the switch flavour. -/
def SwitchHdmDecoder.is_hpa_in_range (self : SwitchHdmDecoder) (hpa : Nat) : Bool :=
  decide (self.base ≤ hpa) && decide (hpa < self.base + self.size)

/-- `DeviceHdmDecoder.get_bit_range`: bits `start_bit..end_bit` of `number`. -/
def DeviceHdmDecoder.get_bit_range (number start_bit end_bit : Nat) : Nat :=
  let mask := (1 <<< (end_bit - start_bit + 1)) - 1
  let shifted_number := number >>> start_bit
  shifted_number &&& mask

/-- `DeviceHdmDecoder.get_dpa`. All enum arithmetic (`self.ig + 7`,
`self.iw < 8`, ...) is on the IntEnum register values, exactly as in
Python. -/
def DeviceHdmDecoder.get_dpa (self : DeviceHdmDecoder) (hpa : Nat) : Nat :=
  let hpa_offset := hpa - self.base
  let dpa_offset_low := get_bit_range hpa_offset 0 (self.ig.val + 7)
  let dpa_offset_high :=
    if self.iw.val < 8 then
      get_bit_range hpa_offset (self.ig.val + 8 + self.iw.val) 51
    else
      get_bit_range hpa_offset (self.ig.val + self.iw.val) 51 / 3
  let dpa_offset := dpa_offset_low ||| (dpa_offset_high <<< (self.ig.val + 8))
  dpa_offset + self.dpa_base

/-- `DeviceHdmDecoder.get_hpa`. -/
def DeviceHdmDecoder.get_hpa (self : DeviceHdmDecoder) (dpa : Nat) : Nat :=
  dpa + self.base

/-- `SwitchHdmDecoder.get_target`. The Python body indexes
`self.target_ports[target_index]`; an out-of-range index raises, modelled
as `none`. Note the source decodes the interleave-ways register value as
`1 << self.iw`. -/
def SwitchHdmDecoder.get_target (self : SwitchHdmDecoder) (hpa : Nat) : Option Nat :=
  let decoded_ig := 1 <<< (self.ig.val + 8)
  let decoded_iw := 1 <<< self.iw.val
  let target_index := (hpa / decoded_ig) % decoded_iw
  self.target_ports[target_index]?

/-- Dataclass `DecoderInfo`. -/
structure DecoderInfo where
  size : Nat := 0
  base : Nat := 0
  dpa_skip : Nat := 0
  ig : INTERLEAVE_GRANULARITY := .SIZE_256B
  iw : INTERLEAVE_WAYS := .WAY_1
  target_ports : List Nat := []
  deriving DecidableEq, Repr

/-- Python list subscription semantics for index `i` into a list of length
`len`: non-negative indices must be `< len`, negative indices wrap once;
anything else raises IndexError (`none`). -/
def pyListIndex (len : Nat) (i : Int) : Option Nat :=
  if 0 ≤ i ∧ i < (len : Int) then some i.toNat
  else if -(len : Int) ≤ i ∧ i < 0 then some (i + (len : Int)).toNat
  else none

/-- `HdmDecoderManagerBase.get_decoder_count` (a static method on the
register value); an unlisted register value raises (`none`). -/
def get_decoder_count (decode_register_value : Nat) : Option Nat :=
  if decode_register_value = 0 then some 1
  else if 1 ≤ decode_register_value ∧ decode_register_value ≤ 8 then
    some (decode_register_value * 2)
  else if 9 ≤ decode_register_value ∧ decode_register_value ≤ 0x0C then
    some ((decode_register_value - 9) * 4 + 20)
  else none

/-- State of a `DeviceHdmDecoderManager`: its `_decoders` list. -/
structure DeviceHdmDecoderManager where
  decoders : List DeviceHdmDecoder
  deriving DecidableEq, Repr

/-- State of a `SwitchHdmDecoderManager`: its `_decoders` list. -/
structure SwitchHdmDecoderManager where
  decoders : List SwitchHdmDecoder
  deriving DecidableEq, Repr

/-- `DeviceHdmDecoderManager.__init__`: `decoder_count` decoders, each
`DeviceHdmDecoder(index=i, size=0, base=0)` with dataclass defaults for the
other fields. -/
def DeviceHdmDecoderManager.fresh (c : HDM_DECODER_COUNT) : DeviceHdmDecoderManager :=
  ⟨(List.range ((get_decoder_count c.val).getD 0)).map fun decoder_index =>
    { index := decoder_index, size := 0, base := 0, ig := .SIZE_256B, iw := .WAY_1,
      dpa_base := 0, dpa_skip := 0 }⟩

/-- `SwitchHdmDecoderManager.__init__`. -/
def SwitchHdmDecoderManager.fresh (c : HDM_DECODER_COUNT) : SwitchHdmDecoderManager :=
  ⟨(List.range ((get_decoder_count c.val).getD 0)).map fun decoder_index =>
    { index := decoder_index, size := 0, base := 0, ig := .SIZE_256B, iw := .WAY_1,
      target_ports := [] }⟩


/-- `HdmDecoderManagerBase.get_decoder_from_hpa` (device manager): first
decoder whose range contains `hpa`. -/
def DeviceHdmDecoderManager.get_decoder_from_hpa (m : DeviceHdmDecoderManager)
    (hpa : Nat) : Option DeviceHdmDecoder :=
  m.decoders.find? fun decoder => decoder.is_hpa_in_range hpa

/-- `HdmDecoderManagerBase.is_hpa_in_range` (device manager). -/
def DeviceHdmDecoderManager.is_hpa_in_range (m : DeviceHdmDecoderManager)
    (hpa : Nat) : Bool :=
  (m.get_decoder_from_hpa hpa).isSome

/-- `HdmDecoderManagerBase.get_decoder_from_hpa` (switch manager). -/
def SwitchHdmDecoderManager.get_decoder_from_hpa (m : SwitchHdmDecoderManager)
    (hpa : Nat) : Option SwitchHdmDecoder :=
  m.decoders.find? fun decoder => decoder.is_hpa_in_range hpa

/-- `HdmDecoderManagerBase.is_hpa_in_range` (switch manager). -/
def SwitchHdmDecoderManager.is_hpa_in_range (m : SwitchHdmDecoderManager)
    (hpa : Nat) : Bool :=
  (m.get_decoder_from_hpa hpa).isSome

/-- `DeviceHdmDecoderManager.commit`. The source performs no bounds check
before `self._decoders[index]`; an IndexError is `Except.error ()`. On
success it mutates the indexed decoder in place and returns `True`. -/
def DeviceHdmDecoderManager.commit (m : DeviceHdmDecoderManager) (index : Int)
    (info : DecoderInfo) : Except Unit (DeviceHdmDecoderManager × Bool) :=
  match pyListIndex m.decoders.length index with
  | none => .error ()
  | some i =>
    match m.decoders[i]? with
    | none => .error ()
    | some decoder =>
      let decoder := { decoder with
        dpa_base := 0
        dpa_skip := info.dpa_skip
        base := info.base
        size := info.size
        ig := info.ig
        iw := info.iw }
      .ok (⟨m.decoders.set i decoder⟩, true)

/-- `DeviceHdmDecoderManager.get_hpa`: reverses dpa→hpa through the first
decoder, refusing (`none`) when that decoder is not 1-way interleaved. -/
def DeviceHdmDecoderManager.get_hpa (m : DeviceHdmDecoderManager) (dpa : Nat) :
    Option Nat :=
  match m.decoders.head? with
  | none => none
  | some device_decoder =>
    if device_decoder.iw ≠ .WAY_1 then none
    else some (device_decoder.get_hpa dpa)

/-- `SwitchHdmDecoderManager.commit`. The source's bounds check is
`if index > len(self._decoders)`: it rejects only indices strictly greater
than the length (returning `False`), then subscripts the list, so
`index = len` raises IndexError (`Except.error ()`) and negative indices
wrap onto existing decoders. -/
def SwitchHdmDecoderManager.commit (m : SwitchHdmDecoderManager) (index : Int)
    (info : DecoderInfo) : Except Unit (SwitchHdmDecoderManager × Bool) :=
  if index > (m.decoders.length : Int) then .ok (m, false)
  else
    match pyListIndex m.decoders.length index with
    | none => .error ()
    | some i =>
      match m.decoders[i]? with
      | none => .error ()
      | some decoder =>
        let decoder := { decoder with
          base := info.base
          size := info.size
          ig := info.ig
          iw := info.iw
          target_ports := info.target_ports }
        .ok (⟨m.decoders.set i decoder⟩, true)

/-- `SwitchHdmDecoderManager.get_target`. -/
def SwitchHdmDecoderManager.get_target (m : SwitchHdmDecoderManager) (hpa : Nat) :
    Option Nat :=
  match m.get_decoder_from_hpa hpa with
  | none => none
  | some switch_decoder => switch_decoder.get_target hpa

/-! ## CXL.mem / cache transport vocabulary

The enum classes below are members of `opencis/cxl/transport/transaction.py`
and `opencis/cxl/transport/{cache_fifo, memory_fifo}.py`, which are not part
of the sources under verification; each is modelled from the spec's data
model (§3) and from the members the in-scope components reference. Only the
members those components use are included. -/

/-- Modelled from the spec: `CACHE_REQUEST_TYPE` members used by the home
agent (`cache_fifo` module is not under src/). -/
inductive CACHE_REQUEST_TYPE where
  | READ | WRITE | WRITE_BACK | WRITE_BACK_CLEAN | SNP_DATA | SNP_INV
  | SNP_CUR | UNCACHED_READ | UNCACHED_WRITE
  deriving DecidableEq, Repr

/-- Modelled from the spec: `CACHE_RESPONSE_STATUS` members
(`cache_fifo` module is not under src/). -/
inductive CACHE_RESPONSE_STATUS where
  | OK | RSP_I | RSP_S | RSP_V | RSP_MISS
  deriving DecidableEq, Repr

/-- Modelled from the spec: M2S Req opcodes (§3; `transaction.py` is not
under src/). -/
inductive CXL_MEM_M2SREQ_OPCODE where
  | MEM_RD | MEM_INV
  deriving DecidableEq, Repr

/-- Modelled from the spec: M2S RwD opcodes. -/
inductive CXL_MEM_M2SRWD_OPCODE where
  | MEM_WR
  deriving DecidableEq, Repr

/-- Modelled from the spec: M2S BIRsp opcodes. -/
inductive CXL_MEM_M2SBIRSP_OPCODE where
  | BIRSP_I | BIRSP_S | BIRSP_E
  deriving DecidableEq, Repr

/-- Modelled from the spec: S2M NDR opcodes. -/
inductive CXL_MEM_S2MNDR_OPCODE where
  | CMP | CMP_S | CMP_E | CMP_M
  deriving DecidableEq, Repr

/-- Modelled from the spec: S2M DRS opcodes. -/
inductive CXL_MEM_S2MDRS_OPCODE where
  | MEM_DATA
  deriving DecidableEq, Repr

/-- Modelled from the spec: S2M BISnp opcodes. -/
inductive CXL_MEM_S2MBISNP_OPCODE where
  | BISNP_DATA | BISNP_INV
  deriving DecidableEq, Repr

/-- Modelled from the spec: metadata field selector. -/
inductive CXL_MEM_META_FIELD where
  | NO_OP | META0_STATE
  deriving DecidableEq, Repr

/-- Modelled from the spec: metadata values. -/
inductive CXL_MEM_META_VALUE where
  | INVALID | ANY | SHARED
  deriving DecidableEq, Repr

/-- Modelled from the spec: M2S snoop types. -/
inductive CXL_MEM_M2S_SNP_TYPE where
  | NO_OP | SNP_DATA | SNP_INV | SNP_CUR
  deriving DecidableEq, Repr

/-- Modelled from the spec: coherency-loop states (`cache_controller`
module is not under src/; the home agent drives INIT → START → WAIT). -/
inductive COH_STATE_MACHINE where
  | COH_STATE_INIT | COH_STATE_START | COH_STATE_WAIT
  deriving DecidableEq, Repr

/-- `CacheRequest` record carried on the cache fifos. -/
structure CacheRequest where
  type : CACHE_REQUEST_TYPE
  addr : Nat
  data : Option Nat := none
  deriving DecidableEq, Repr

/-- `CacheResponse` record carried on the cache fifos. -/
structure CacheResponse where
  status : CACHE_RESPONSE_STATUS
  data : Option Nat := none
  deriving DecidableEq, Repr

/-- Fields of an M2S Req packet as built by
`HomeAgent._create_m2s_req_packet`. -/
structure CxlMemReqPacket where
  opcode : CXL_MEM_M2SREQ_OPCODE
  meta_field : CXL_MEM_META_FIELD
  meta_value : CXL_MEM_META_VALUE
  snp_type : CXL_MEM_M2S_SNP_TYPE
  addr : Nat
  deriving DecidableEq, Repr

/-- Fields of an M2S RwD packet as built by
`HomeAgent._create_m2s_rwd_packet`. -/
structure CxlMemRwdPacket where
  opcode : CXL_MEM_M2SRWD_OPCODE
  meta_field : CXL_MEM_META_FIELD
  meta_value : CXL_MEM_META_VALUE
  snp_type : CXL_MEM_M2S_SNP_TYPE
  addr : Nat
  data : Option Nat
  deriving DecidableEq, Repr

/-- Fields of an M2S BIRsp packet (`CxlMemBIRspPacket.create`). -/
structure CxlMemBIRspPacket where
  opcode : CXL_MEM_M2SBIRSP_OPCODE
  bi_id : Nat
  bi_tag : Nat
  deriving DecidableEq, Repr

/-- Fields of an S2M NDR packet the home agent inspects. -/
structure CxlMemS2MNDRPacket where
  opcode : CXL_MEM_S2MNDR_OPCODE
  meta_value : CXL_MEM_META_VALUE
  deriving DecidableEq, Repr

/-- Fields of an S2M DRS packet the home agent inspects. -/
structure CxlMemS2MDRSPacket where
  opcode : CXL_MEM_S2MDRS_OPCODE
  data : Nat
  deriving DecidableEq, Repr

/-- Fields of an S2M BISnp packet the home agent inspects. -/
structure CxlMemS2MBISnpPacket where
  opcode : CXL_MEM_S2MBISNP_OPCODE
  addr : Nat
  bi_id : Nat
  bi_tag : Nat
  deriving DecidableEq, Repr

/-- A packet the home agent puts on the downstream
`cxl_mem_fifos.host_to_target` queue. -/
inductive HostToTargetPacket where
  | req (p : CxlMemReqPacket)
  | rwd (p : CxlMemRwdPacket)
  | birsp (p : CxlMemBIRspPacket)
  deriving DecidableEq, Repr

/-- `CohStateMachine` dataclass (the home agent's `_cur_state`). -/
structure CohStateMachine where
  state : COH_STATE_MACHINE
  packet : Option CxlMemS2MBISnpPacket
  cache_rsp : CXL_MEM_M2SBIRSP_OPCODE
  cache_list : List Nat
  birsp_sched : Bool
  deriving DecidableEq, Repr

/-! ## Home agent (src/opencis/cxl/component/root_complex/home_agent.py)

The async handlers are embedded as functions of the current
`CohStateMachine` state and the packets the corresponding `await ... get()`
calls return; the outputs collect, in order, the packets each handler puts
on the downstream host-to-target fifo and on the upstream cache fifos. -/

/-- `HomeAgent._create_m2s_req_packet`. -/
def HomeAgent.create_m2s_req_packet (opcode : CXL_MEM_M2SREQ_OPCODE)
    (meta_field : CXL_MEM_META_FIELD) (meta_value : CXL_MEM_META_VALUE)
    (snp_type : CXL_MEM_M2S_SNP_TYPE) (addr : Nat) : CxlMemReqPacket :=
  { opcode := opcode, meta_field := meta_field, meta_value := meta_value,
    snp_type := snp_type, addr := addr }

/-- `HomeAgent._create_m2s_rwd_packet`. -/
def HomeAgent.create_m2s_rwd_packet (opcode : CXL_MEM_M2SRWD_OPCODE)
    (meta_field : CXL_MEM_META_FIELD) (meta_value : CXL_MEM_META_VALUE)
    (snp_type : CXL_MEM_M2S_SNP_TYPE) (addr : Nat) (data : Option Nat) :
    CxlMemRwdPacket :=
  { opcode := opcode, meta_field := meta_field, meta_value := meta_value,
    snp_type := snp_type, addr := addr, data := data }

/-- `HomeAgent._process_upstream_host_to_target_packets`: translate a local
`CacheRequest` into an M2S transaction. Returns the new `_cur_state`, the
packets put on the downstream host-to-target fifo and the responses put on
the upstream cache-to-home-agent response fifo; an unhandled request type
raises (`Except.error`). -/
def HomeAgent.process_upstream_host_to_target_packets (cur : CohStateMachine)
    (cache_packet : CacheRequest) :
    Except String (CohStateMachine × List HostToTargetPacket × List CacheResponse) :=
  if cur.state = .COH_STATE_WAIT then .ok (cur, [], [])
  else if cur.state = .COH_STATE_START then
    let meta_field := CXL_MEM_META_FIELD.NO_OP
    let meta_value := CXL_MEM_META_VALUE.INVALID
    let snp_type := CXL_MEM_M2S_SNP_TYPE.NO_OP
    let addr := cache_packet.addr
    if cache_packet.type = .WRITE ∨ cache_packet.type = .WRITE_BACK ∨
        cache_packet.type = .WRITE_BACK_CLEAN ∨
        cache_packet.type = .UNCACHED_WRITE then
      let opcode := CXL_MEM_M2SRWD_OPCODE.MEM_WR
      let data := cache_packet.data
      let mfmv : CXL_MEM_META_FIELD × CXL_MEM_META_VALUE :=
        if cache_packet.type = .WRITE then (meta_field, .ANY)
        else if cache_packet.type = .WRITE_BACK ∨
            cache_packet.type = .WRITE_BACK_CLEAN then (.META0_STATE, .INVALID)
        else if cache_packet.type = .UNCACHED_WRITE then (meta_field, .ANY)
        else (meta_field, meta_value)
      let cxl_packet := HostToTargetPacket.rwd
        (HomeAgent.create_m2s_rwd_packet opcode mfmv.1 mfmv.2 snp_type addr data)
      .ok ({ cur with state := .COH_STATE_WAIT }, [cxl_packet],
        [{ status := .OK }])
    else do
      let ofvs : CXL_MEM_M2SREQ_OPCODE × CXL_MEM_META_FIELD ×
          CXL_MEM_META_VALUE × CXL_MEM_M2S_SNP_TYPE ←
        if cache_packet.type = .READ then
          .ok (.MEM_RD, meta_field, .ANY, snp_type)
        else if cache_packet.type = .SNP_DATA then
          .ok (.MEM_RD, .META0_STATE, .SHARED, .SNP_DATA)
        else if cache_packet.type = .SNP_INV then
          .ok (.MEM_INV, .META0_STATE, .ANY, .SNP_INV)
        else if cache_packet.type = .SNP_CUR then
          .ok (.MEM_RD, .META0_STATE, meta_value, .SNP_CUR)
        else if cache_packet.type = .UNCACHED_READ then
          .ok (.MEM_RD, meta_field, .ANY, snp_type)
        else .error "Invalid M2S Opcode Type"
      .ok ({ cur with state := .COH_STATE_WAIT },
        [HostToTargetPacket.req
          (HomeAgent.create_m2s_req_packet ofvs.1 ofvs.2.1 ofvs.2.2.1
            ofvs.2.2.2 addr)], [])
  else .ok (cur, [], [])

/-- The `CacheRequest` the BISnp handler issues to the coherency bridge for
a given snoop opcode. -/
def HomeAgent.bisnp_to_cache_request (s2mbisnp_packet : CxlMemS2MBISnpPacket) :
    CacheRequest :=
  match s2mbisnp_packet.opcode with
  | .BISNP_DATA => { type := .SNP_DATA, addr := s2mbisnp_packet.addr }
  | .BISNP_INV => { type := .SNP_INV, addr := s2mbisnp_packet.addr }

/-- `HomeAgent._process_cxl_s2m_bisnp_packet`. `bridge_rsp` is the cache
response the handler awaits from the upstream home-agent-to-cache fifo.
Returns the new `_cur_state`, the packets put on the downstream
host-to-target fifo and the requests put on the upstream
home-agent-to-cache request fifo. -/
def HomeAgent.process_cxl_s2m_bisnp_packet (cur : CohStateMachine)
    (s2mbisnp_packet : CxlMemS2MBISnpPacket) (bridge_rsp : CacheResponse) :
    CohStateMachine × List HostToTargetPacket × List CacheRequest :=
  if cur.state = .COH_STATE_WAIT then (cur, [], [])
  else if cur.state = .COH_STATE_START then
    let addr := s2mbisnp_packet.addr
    let cache_packet := HomeAgent.bisnp_to_cache_request s2mbisnp_packet
    let bi_id := s2mbisnp_packet.bi_id
    let bi_tag := s2mbisnp_packet.bi_tag
    if bridge_rsp.status = .RSP_MISS then
      let rsp_state := CXL_MEM_M2SBIRSP_OPCODE.BIRSP_I
      let cxl_packet := HostToTargetPacket.birsp
        { opcode := rsp_state, bi_id := bi_id, bi_tag := bi_tag }
      ({ cur with state := .COH_STATE_INIT }, [cxl_packet], [cache_packet])
    else
      let cache_rsp :=
        if bridge_rsp.status = .RSP_S then CXL_MEM_M2SBIRSP_OPCODE.BIRSP_S
        else CXL_MEM_M2SBIRSP_OPCODE.BIRSP_I
      let cxl_packet := HostToTargetPacket.rwd
        (HomeAgent.create_m2s_rwd_packet .MEM_WR .META0_STATE .INVALID .NO_OP
          addr bridge_rsp.data)
      ({ cur with
          state := .COH_STATE_WAIT
          cache_rsp := cache_rsp
          birsp_sched := true }, [cxl_packet], [cache_packet])
  else (cur, [], [])

/-- `HomeAgent._process_cxl_s2m_rsp_packet`. `drs` is the packet the
HDM-DB spin-wait on the `s2m_drs` channel eventually yields (`none` models
that channel staying empty, on which the source would spin forever). For
opcode `CMP_M` the source assigns no `status` and then dereferences it — a
NameError, modelled as an error. -/
def HomeAgent.process_cxl_s2m_rsp_packet (cur : CohStateMachine)
    (s2mndr_packet : CxlMemS2MNDRPacket) (drs : Option CxlMemS2MDRSPacket) :
    Except String (CohStateMachine × List HostToTargetPacket × List CacheResponse) :=
  match s2mndr_packet.opcode with
  | .CMP =>
    if cur.birsp_sched then
      match cur.packet with
      | none => .error "AttributeError: _cur_state.packet is None"
      | some p =>
        .ok ({ cur with birsp_sched := false, state := .COH_STATE_INIT },
          [HostToTargetPacket.birsp
            { opcode := cur.cache_rsp, bi_id := p.bi_id, bi_tag := p.bi_tag }],
          [])
    else .ok ({ cur with state := .COH_STATE_INIT }, [], [])
  | op =>
    let status : Option CACHE_RESPONSE_STATUS :=
      match op with
      | .CMP_S => some .RSP_S
      | .CMP_E => some .RSP_I
      | _ => none
    if s2mndr_packet.meta_value = .ANY then
      match drs with
      | none => .error "spinning on an empty s2m_drs channel"
      | some cxl_packet =>
        match status with
        | none => .error "NameError: status referenced before assignment"
        | some st =>
          .ok ({ cur with state := .COH_STATE_INIT }, [],
            [{ status := st, data := some cxl_packet.data }])
    else
      match status with
      | none => .error "NameError: status referenced before assignment"
      | some st =>
        .ok ({ cur with state := .COH_STATE_INIT }, [], [{ status := st }])

/-! ## Home agent CXL.mem read/write paths

`read_cxl_mem` / `write_cxl_mem` loop over 64-byte chunks, each iteration
awaiting the downstream target-to-host fifo under `asyncio.timeout(3)`.
Each such await is modelled by one element of an event stream: either the
packet it returned or the firing of the 3-second timeout. -/

/-- The hardcoded argument of `asyncio.timeout(...)` on both CXL.mem
paths, in seconds. -/
def HomeAgent.cxl_mem_rw_timeout_seconds : Nat := 3

/-- A packet arriving on the downstream target-to-host fifo: a
`CxlMemMemDataPacket` or anything else (`is_cxl_mem_data` false). -/
inductive TargetToHostPacket where
  | memData (data : Nat)
  | other
  deriving DecidableEq, Repr

/-- Outcome of one `await get()` under `asyncio.timeout(3)`. -/
inductive CxlMemFifoEvent where
  | timeout
  | packet (p : TargetToHostPacket)
  deriving DecidableEq, Repr

/-- Loop body of `HomeAgent.read_cxl_mem`. `reqs` accumulates the
addresses of the `CxlMemMemRdPacket`s put on the host-to-target fifo; the
result is the list of issued requests and `some result` on completion,
`none` after a timeout (the source logs and returns `None`; no retry). A
non-data packet fails the `assert is_cxl_mem_data` (`Except.error`). -/
def HomeAgent.read_cxl_mem_loop (events : Nat → CxlMemFifoEvent) (addr : Nat) :
    Nat → Nat → Nat → List Nat → Except String (List Nat × Option Nat) :=
  fun size result k reqs =>
  if _h : 0 < size then
    let req_addr := addr + (size - 64)
    match events k with
    | .timeout => .ok (reqs ++ [req_addr], none)
    | .packet .other => .error "assertion failed: is_cxl_mem_data"
    | .packet (.memData data) =>
      HomeAgent.read_cxl_mem_loop events addr (size - 64)
        ((result ||| data) <<< (64 * 8)) (k + 1) (reqs ++ [req_addr])
  else .ok (reqs, some result)
termination_by size _ _ _ => size
decreasing_by omega

/-- `HomeAgent.read_cxl_mem`. -/
def HomeAgent.read_cxl_mem (addr size : Nat) (events : Nat → CxlMemFifoEvent) :
    Except String (List Nat × Option Nat) :=
  if addr % 64 ≠ 0 ∨ size % 64 ≠ 0 then
    .error "Size and address must be aligned to 64!"
  else HomeAgent.read_cxl_mem_loop events addr size 0 0 []

/-- Loop body of `HomeAgent.write_cxl_mem`: the list of
`(address, low 64 bytes)` pairs put on the host-to-target fifo. A timeout
makes the function return at once, leaving later chunks unwritten. -/
def HomeAgent.write_cxl_mem_loop (events : Nat → CxlMemFifoEvent) (addr : Nat) :
    Nat → Nat → Nat → List (Nat × Nat) → List (Nat × Nat) :=
  fun size value chunk_count emitted =>
  if _h : 0 < size then
    let low_64_byte := value &&& ((1 <<< (64 * 8)) - 1)
    let pkt := (addr + chunk_count * 64, low_64_byte)
    match events chunk_count with
    | .timeout => emitted ++ [pkt]
    | .packet _ =>
      HomeAgent.write_cxl_mem_loop events addr (size - 64) (value >>> (64 * 8))
        (chunk_count + 1) (emitted ++ [pkt])
  else emitted
termination_by size _ _ _ => size
decreasing_by omega

/-- `HomeAgent.write_cxl_mem`. -/
def HomeAgent.write_cxl_mem (addr size value : Nat)
    (events : Nat → CxlMemFifoEvent) : Except String (List (Nat × Nat)) :=
  if addr % 64 ≠ 0 ∨ size % 64 ≠ 0 then
    .error "Size and address must be aligned to 64!"
  else .ok (HomeAgent.write_cxl_mem_loop events addr size value 0 [])

/-! ## Packet processor (src/opencis/cxl/component/cxl_packet_processor.py) -/

/-- Modelled from the spec: CXL.io `fmt_type` discriminants (§3;
`transaction.py` is not under src/). -/
inductive CXL_IO_FMT_TYPE where
  | CFG_RD | CFG_WR | MEM_RD | MEM_WR | CPL | CPL_D
  deriving DecidableEq, Repr

/-- The fields of a CXL.io packet the tid bookkeeping inspects. -/
structure CxlIoPacket where
  fmt_type : CXL_IO_FMT_TYPE
  tid : Nat
  deriving DecidableEq, Repr

/-- `is_cfg`: CFG_RD / CFG_WR. -/
def CxlIoPacket.is_cfg (p : CxlIoPacket) : Bool :=
  match p.fmt_type with
  | .CFG_RD | .CFG_WR => true
  | _ => false

/-- `is_mmio`: MRD / MWR. -/
def CxlIoPacket.is_mmio (p : CxlIoPacket) : Bool :=
  match p.fmt_type with
  | .MEM_RD | .MEM_WR => true
  | _ => false

/-- `is_cpl`. -/
def CxlIoPacket.is_cpl (p : CxlIoPacket) : Bool := p.fmt_type = .CPL

/-- `is_cpld`. -/
def CxlIoPacket.is_cpld (p : CxlIoPacket) : Bool := p.fmt_type = .CPL_D

/-- `is_mem_write`. -/
def CxlIoPacket.is_mem_write (p : CxlIoPacket) : Bool := p.fmt_type = .MEM_WR

/-- `CXL_IO_FIFO_TYPE`; the source names the members CFG and MMIO (the
second is spelled `MMIO_` here). -/
inductive CXL_IO_FIFO_TYPE where
  | CFG
  | MMIO_
  deriving DecidableEq, Repr

/-- The processor's `_tlp_table : Dict[int, CXL_IO_FIFO_TYPE]`, as an
association list with unique keys. -/
def TlpTable := List (Nat × CXL_IO_FIFO_TYPE)

/-- Dictionary lookup. -/
def TlpTable.lookup (t : TlpTable) (tid : Nat) : Option CXL_IO_FIFO_TYPE :=
  (List.find? (fun e => e.1 == tid) t).map (fun e => e.2)

/-- Dictionary deletion. -/
def TlpTable.erase (t : TlpTable) (tid : Nat) : TlpTable :=
  List.filter (fun e => e.1 != tid) t

/-- `CxlPacketProcessor._push_tlp_table_entry`; raising is
`Except.error`. -/
def CxlPacketProcessor.push_tlp_table_entry (t : TlpTable) (p : CxlIoPacket) :
    Except String TlpTable :=
  if (t.lookup p.tid).isSome then .error "tid already exists in the TLP table"
  else if p.is_cfg then .ok ((p.tid, .CFG) :: t)
  else if p.is_mmio then .ok ((p.tid, .MMIO_) :: t)
  else .error "pushing tid of this type is not allowed"

/-- `CxlPacketProcessor._pop_tlp_table_entry`. -/
def CxlPacketProcessor.pop_tlp_table_entry (t : TlpTable) (p : CxlIoPacket) :
    Except String (CXL_IO_FIFO_TYPE × TlpTable) :=
  match t.lookup p.tid with
  | none => .error "tid is not found in the TLP table"
  | some fifo_type => .ok (fifo_type, t.erase p.tid)

/-- The CXL.io arm of `CxlPacketProcessor._process_incoming_packets` for a
non-MLD component: updates the tid table and names the mailbox (cfg_space
or mmio) the packet is put on. -/
def CxlPacketProcessor.process_incoming_cxl_io_packet (t : TlpTable)
    (p : CxlIoPacket) : Except String (TlpTable × CXL_IO_FIFO_TYPE) :=
  if p.is_cpl || p.is_cpld then do
    let (fifo_type, t') ← CxlPacketProcessor.pop_tlp_table_entry t p
    if fifo_type = .CFG then .ok (t', .CFG)
    else .ok (t', .MMIO_)
  else if p.is_cfg then do
    let t' ← CxlPacketProcessor.push_tlp_table_entry t p
    .ok (t', .CFG)
  else if p.is_mmio then do
    let t' ←
      if p.is_mem_write = false then CxlPacketProcessor.push_tlp_table_entry t p
      else .ok t
    .ok (t', .MMIO_)
  else .error "Received unexpected CXL.io packet"

/-! ## Switch connection manager
(src/opencis/cxl/component/switch_connection_manager.py) -/

/-- The per-port state the handshake reads and writes (`SwitchPort`,
restricted to its `connected` flag). -/
structure SwitchPort where
  connected : Bool
  deriving DecidableEq, Repr

/-- Modelled from the spec: sideband packet types (§3; `transaction.py` is
not under src/). -/
inductive SIDEBAND_TYPES where
  | CONNECTION_REQUEST | CONNECTION_ACCEPT | CONNECTION_REJECT
  | CONNECTION_DISCONNECTED
  deriving DecidableEq, Repr

/-- Modelled from the spec: classification of the first packet received on
a new connection — a sideband connection request carrying a port index
(a 2-byte unsigned wire field), some other sideband packet, or a
non-sideband packet. -/
inductive HandshakePacket where
  | sideband_connection_request (port : Nat)
  | sideband_other
  | non_sideband
  deriving DecidableEq, Repr

/-- `SwitchConnectionManager._wait_for_connection_request`; every raise is
an `Except.error`. The source also rejects `port_index < 0`, which cannot
fire for the unsigned wire field. -/
def SwitchConnectionManager.wait_for_connection_request
    (ports : List SwitchPort) (pkt : HandshakePacket) : Except String Nat :=
  match pkt with
  | .non_sideband => .error "Handshake Error"
  | .sideband_other => .error "Handshake Error"
  | .sideband_connection_request port_index =>
    if ports.length ≤ port_index then .error "Invalid port number"
    else
      match ports[port_index]? with
      | none => .error "Invalid port number"
      | some sp =>
        if sp.connected then .error "Connection already exists for port"
        else .ok port_index

/-- The handshake phase of `SwitchConnectionManager._handle_client`: on a
valid request send `connection_accept` and mark the port connected
(`_update_connection_status(port_index, connected=True)`); on any failure
`port_index` stays `None`, a `connection_reject` is sent and no port is
touched. -/
def SwitchConnectionManager.handle_client_handshake (ports : List SwitchPort)
    (pkt : HandshakePacket) : SIDEBAND_TYPES × List SwitchPort :=
  match SwitchConnectionManager.wait_for_connection_request ports pkt with
  | .ok port_index =>
    (.CONNECTION_ACCEPT,
      match ports[port_index]? with
      | some _ => ports.set port_index { connected := true }
      | none => ports)
  | .error _ => (.CONNECTION_REJECT, ports)

/-! ## Memory controller
(src/opencis/cxl/component/root_complex/memory_controller.py) -/

/-- Modelled from the spec: `MEMORY_REQUEST_TYPE` members the controller
handles (`memory_fifo` module is not under src/). -/
inductive MEMORY_REQUEST_TYPE where
  | WRITE | READ
  deriving DecidableEq, Repr

/-- Modelled from the spec: `MEMORY_RESPONSE_STATUS` members the
controller produces. -/
inductive MEMORY_RESPONSE_STATUS where
  | OK
  deriving DecidableEq, Repr

/-- `MemoryRequest` record. -/
structure MemoryRequest where
  type : MEMORY_REQUEST_TYPE
  addr : Nat
  size : Nat
  data : Nat := 0
  deriving DecidableEq, Repr

/-- `MemoryResponse` record. -/
structure MemoryResponse where
  status : MEMORY_RESPONSE_STATUS
  data : Option Nat := none
  deriving DecidableEq, Repr

/-- Error a `FileAccessor` operation fails with. -/
inductive FileAccessError where
  | Misaligned
  deriving DecidableEq, Repr

/-- Modelled from the spec: `FileAccessor.write` (`opencis/util/accessor.py`
is not under src/). Spec §4.G: write and read serve 64-byte-aligned
requests; a misaligned request fails with `Misaligned`. The backing file is
a byte map; a write lays `data` down little-endian over
`[addr, addr + size)`. -/
def FileAccessor.write (mem : Nat → Nat) (addr data size : Nat) :
    Except FileAccessError (Nat → Nat) :=
  if addr % 64 ≠ 0 ∨ size % 64 ≠ 0 then .error .Misaligned
  else .ok fun b =>
    if addr ≤ b ∧ b < addr + size then (data >>> (8 * (b - addr))) % 256
    else mem b

/-- Modelled from the spec: `FileAccessor.read` — the little-endian value
of the `size` bytes at `addr`, or `Misaligned`. -/
def FileAccessor.read (mem : Nat → Nat) (addr size : Nat) :
    Except FileAccessError Nat :=
  if addr % 64 ≠ 0 ∨ size % 64 ≠ 0 then .error .Misaligned
  else .ok ((List.range size).foldr
    (fun b acc => (acc <<< 8) ||| (mem (addr + b) % 256)) 0)

/-- One iteration of `MemoryController._process_memory_requests`: serve a
request against the file accessor and build the response (the source
answers `MEMORY_RESPONSE_STATUS.OK` only when the accessor returned). -/
def MemoryController.process_memory_request (mem : Nat → Nat)
    (packet : MemoryRequest) :
    Except FileAccessError ((Nat → Nat) × MemoryResponse) :=
  match packet.type with
  | .WRITE => do
    let mem' ← FileAccessor.write mem packet.addr packet.data packet.size
    .ok (mem', { status := .OK })
  | .READ => do
    let data ← FileAccessor.read mem packet.addr packet.size
    .ok (mem, { status := .OK, data := some data })

/-! ## Concrete inputs used by the decoder theorems -/

/-- Decoder produced by committing a 3-way-interleaved entry (register
encoding `WAY_3 = 0x8`) with four target ports. -/
def c1_decoder : SwitchHdmDecoder :=
  { index := 0, size := 4096, base := 0, ig := .SIZE_256B, iw := .WAY_3,
    target_ports := [10, 11, 12, 13] }

/-- Commit info matching `c1_decoder`. -/
def c1_info : DecoderInfo :=
  { size := 4096, base := 0, ig := .SIZE_256B, iw := .WAY_3,
    target_ports := [10, 11, 12, 13] }

/-- Commit info whose size crosses bit 52 of the HPA-offset space. -/
def c2_info : DecoderInfo := { size := 2 ^ 53, base := 0 }

/-- Decoder produced by committing `c2_info` at index 0. -/
def c2_decoder : DeviceHdmDecoder :=
  { index := 0, size := 2 ^ 53, base := 0, ig := .SIZE_256B, iw := .WAY_1,
    dpa_base := 0, dpa_skip := 0 }

/-- Commit info used for the out-of-range commit experiments. -/
def c3_info : DecoderInfo :=
  { size := 0x100, base := 0x1000, ig := .SIZE_256B, iw := .WAY_1,
    target_ports := [2] }

/-- The empty TLP table. -/
def emptyTlpTable : TlpTable := []

/-! ## Theorems -/

/-- Every interleave-granularity register value is at most 6. -/
theorem INTERLEAVE_GRANULARITY.val_le_six (g : INTERLEAVE_GRANULARITY) :
    g.val ≤ 6 := by
  cases g <;> decide

/-- Recombining the low `k` bits with the next `m` bits shifted back into
place is the identity below `2 ^ (k + m)`. -/
theorem low_or_high_shift_eq (k m a : Nat) (ha : a < 2 ^ (k + m)) :
    (a &&& (2 ^ k - 1)) ||| (((a >>> k) &&& (2 ^ m - 1)) <<< k) = a := by
  have hq : a / 2 ^ k < 2 ^ m := by
    rw [Nat.div_lt_iff_lt_mul (Nat.two_pow_pos k)]
    calc a < 2 ^ (k + m) := ha
    _ = 2 ^ m * 2 ^ k := by rw [Nat.pow_add, Nat.mul_comm]
  rw [Nat.shiftRight_eq_div_pow, Nat.and_pow_two_sub_one_of_lt_two_pow hq,
    Nat.and_pow_two_sub_one_eq_mod, Nat.shiftLeft_eq]
  calc a % 2 ^ k ||| a / 2 ^ k * 2 ^ k
      = 2 ^ k * (a / 2 ^ k) ||| a % 2 ^ k := by rw [Nat.or_comm, Nat.mul_comm]
    _ = 2 ^ k * (a / 2 ^ k) + a % 2 ^ k :=
        (Nat.mul_add_lt_is_or (Nat.mod_lt a (Nat.two_pow_pos k)) _).symm
    _ = a := Nat.div_add_mod a (2 ^ k)

/-- Core round-trip fact for a 1-way device decoder with `dpa_base = 0`:
`get_hpa (get_dpa hpa) = hpa` for HPA offsets below `2 ^ 52`. -/
theorem device_get_dpa_get_hpa (d : DeviceHdmDecoder) (hiw : d.iw = .WAY_1)
    (hdb : d.dpa_base = 0) (hpa : Nat) (h1 : d.base ≤ hpa)
    (hb : hpa - d.base < 2 ^ 52) :
    d.get_hpa (d.get_dpa hpa) = hpa := by
  unfold DeviceHdmDecoder.get_dpa DeviceHdmDecoder.get_hpa
    DeviceHdmDecoder.get_bit_range
  rw [hiw, hdb]
  have hg : d.ig.val ≤ 6 := INTERLEAVE_GRANULARITY.val_le_six d.ig
  simp only [INTERLEAVE_WAYS.val, Nat.shiftRight_zero, Nat.add_zero,
    Nat.one_shiftLeft]
  rw [if_pos (by decide : (0 : Nat) < 8)]
  have e1 : d.ig.val + 7 - 0 + 1 = d.ig.val + 8 := by omega
  have e2 : 51 - (d.ig.val + 8 + 0) + 1 = 44 - d.ig.val := by omega
  rw [e1, e2]
  have e3 : d.ig.val + 8 + 0 = d.ig.val + 8 := by omega
  rw [e3]
  have ha : hpa - d.base < 2 ^ (d.ig.val + 8 + (44 - d.ig.val)) := by
    have : d.ig.val + 8 + (44 - d.ig.val) = 52 := by omega
    rw [this]; exact hb
  rw [low_or_high_shift_eq (d.ig.val + 8) (44 - d.ig.val) (hpa - d.base) ha]
  exact Nat.sub_add_cancel h1

/-- List positions resolved by Python subscription are valid positions. -/
theorem pyListIndex_lt (len : Nat) (i : Int) (j : Nat)
    (h : pyListIndex len i = some j) : j < len := by
  unfold pyListIndex at h
  split at h
  · next hc =>
    injection h with h
    omega
  · split at h
    · next hc =>
      injection h with h
      omega
    · exact absurd h (by simp)

/-- Claim C1 (code bug): the switch decoder indexes `target_ports` with
`(hpa / ig_bytes) mod (1 <<< iw_encoding)`, which coincides with the
number of interleave ways only for the power-of-two encodings. Committing
a 3-way decoder (`WAY_3`, encoding 0x8) over base 0, size 4096, 256-byte
granularity and target ports `[10, 11, 12, 13]`, the in-range HPA 768 is
routed to port 13 (`(768 / 256) mod 256 = 3`), while the specified mapping
`target_ports[(hpa / ig_bytes) mod 3]` selects port 10. -/
theorem switch_get_target_way3_mismatch :
    (SwitchHdmDecoderManager.fresh .DECODER_1).commit 0 c1_info =
      .ok (⟨[c1_decoder]⟩, true) ∧
    c1_decoder.is_hpa_in_range 768 = true ∧
    (SwitchHdmDecoderManager.mk [c1_decoder]).get_target 768 = some 13 ∧
    c1_decoder.target_ports[(768 / 256) % IW_TO_WAYS.calc c1_decoder.iw]? =
      some 10 ∧
    (13 : Nat) ≠ 10 := by
  exact ⟨rfl, by decide, rfl, rfl, by decide⟩

/-- Claim C2, counterexample to the unrestricted statement: a committed
1-way decoder with base 0 and size `2 ^ 53` maps the in-range HPA `2 ^ 52`
to DPA 0 (the decoder drops offset bits above bit 51), and `get_hpa` maps
that back to 0, not `2 ^ 52`. -/
theorem device_roundtrip_counterexample :
    (DeviceHdmDecoderManager.fresh .DECODER_1).commit 0 c2_info =
      .ok (⟨[c2_decoder]⟩, true) ∧
    c2_decoder.iw = .WAY_1 ∧
    c2_decoder.is_hpa_in_range (2 ^ 52) = true ∧
    c2_decoder.get_hpa (c2_decoder.get_dpa (2 ^ 52)) = 0 ∧
    (0 : Nat) ≠ 2 ^ 52 := by
  exact ⟨rfl, rfl, by decide, rfl, by decide⟩

/-- Claim C2 (amended): for every device HDM decoder committed with
interleave ways `WAY_1` and every `hpa` in the decoder's range whose
offset `hpa - base` is below `2 ^ 52` (the decoder truncates offsets to
bits 0..51), `get_hpa (get_dpa hpa) = hpa`. -/
theorem device_committed_roundtrip
    (m m' : DeviceHdmDecoderManager) (index : Int) (info : DecoderInfo)
    (hc : m.commit index info = .ok (m', true))
    (hiw : info.iw = .WAY_1)
    (i : Nat) (hi : pyListIndex m.decoders.length index = some i)
    (d : DeviceHdmDecoder) (hd : m'.decoders[i]? = some d)
    (hpa : Nat) (h1 : d.base ≤ hpa) (h2 : hpa < d.base + d.size)
    (hb : hpa - d.base < 2 ^ 52) :
    d.get_hpa (d.get_dpa hpa) = hpa := by
  have hlen : i < m.decoders.length := pyListIndex_lt _ _ _ hi
  have hstep : m.commit index info =
      match m.decoders[i]? with
      | none => .error ()
      | some decoder =>
        .ok (⟨m.decoders.set i { decoder with
          dpa_base := 0, dpa_skip := info.dpa_skip, base := info.base,
          size := info.size, ig := info.ig, iw := info.iw }⟩, true) := by
    unfold DeviceHdmDecoderManager.commit
    rw [hi]
  rw [hstep] at hc
  cases hget : m.decoders[i]? with
  | none =>
    rw [hget] at hc
    exact absurd hc (by simp)
  | some d0 =>
    rw [hget] at hc
    simp only [Except.ok.injEq, Prod.mk.injEq, and_true] at hc
    subst hc
    rw [List.getElem?_set_self hlen] at hd
    injection hd with hd
    subst hd
    exact device_get_dpa_get_hpa _ hiw rfl hpa h1 hb

/-- Witness for `device_committed_roundtrip` at a concrete committed
decoder (base 0, size 256, 1-way) and `hpa = 64`. -/
theorem device_committed_roundtrip_witness :
    DeviceHdmDecoder.get_hpa
      { index := 0, size := 0x100, base := 0x1000, ig := .SIZE_256B,
        iw := .WAY_1, dpa_base := 0, dpa_skip := 0 }
      (DeviceHdmDecoder.get_dpa
        { index := 0, size := 0x100, base := 0x1000, ig := .SIZE_256B,
          iw := .WAY_1, dpa_base := 0, dpa_skip := 0 } 0x1040) = 0x1040 :=
  device_committed_roundtrip (DeviceHdmDecoderManager.fresh .DECODER_1)
    ⟨[{ index := 0, size := 0x100, base := 0x1000, ig := .SIZE_256B,
        iw := .WAY_1, dpa_base := 0, dpa_skip := 0 }]⟩
    0 c3_info rfl rfl 0 rfl _ rfl 0x1040 (by decide) (by decide) (by decide)

/-- Claim C3 (code bug): commits at indices outside `[0, decoder_count)`
do not uniformly return an error without side effects. With a single
decoder: index 1 raises IndexError in both managers (the switch guard is
`index > len`, so `index = len` slips through; the device manager has no
guard), and index −1 wraps around, silently re-committing decoder 0 and
returning ok. -/
theorem commit_out_of_range_bug :
    (DeviceHdmDecoderManager.fresh .DECODER_1).commit 1 c3_info = .error () ∧
    (SwitchHdmDecoderManager.fresh .DECODER_1).commit 1 c3_info = .error () ∧
    (SwitchHdmDecoderManager.fresh .DECODER_1).commit (-1) c3_info =
      .ok (⟨[{ index := 0, size := 0x100, base := 0x1000, ig := .SIZE_256B,
               iw := .WAY_1, target_ports := [2] }]⟩, true) ∧
    (DeviceHdmDecoderManager.fresh .DECODER_1).commit (-1) c3_info =
      .ok (⟨[{ index := 0, size := 0x100, base := 0x1000, ig := .SIZE_256B,
               iw := .WAY_1, dpa_base := 0, dpa_skip := 0 }]⟩, true) := by
  exact ⟨rfl, rfl, rfl, rfl⟩

/-- Claim C10: a freshly constructed HDM decoder manager (device or switch
flavour) has all decoders at `size = 0`, so no HPA is in range and
`get_decoder_from_hpa` finds nothing, for every decoder-count capability. -/
theorem fresh_manager_decodes_nothing (c : HDM_DECODER_COUNT) (hpa : Nat) :
    (DeviceHdmDecoderManager.fresh c).get_decoder_from_hpa hpa = none ∧
    (DeviceHdmDecoderManager.fresh c).is_hpa_in_range hpa = false ∧
    (SwitchHdmDecoderManager.fresh c).get_decoder_from_hpa hpa = none ∧
    (SwitchHdmDecoderManager.fresh c).get_target hpa = none ∧
    (SwitchHdmDecoderManager.fresh c).is_hpa_in_range hpa = false := by
  have hdev : (DeviceHdmDecoderManager.fresh c).get_decoder_from_hpa hpa = none := by
    unfold DeviceHdmDecoderManager.get_decoder_from_hpa DeviceHdmDecoderManager.fresh
    rw [List.find?_eq_none]
    intro x hx
    simp only [List.mem_map] at hx
    obtain ⟨j, _, rfl⟩ := hx
    simp [DeviceHdmDecoder.is_hpa_in_range]
  have hsw : (SwitchHdmDecoderManager.fresh c).get_decoder_from_hpa hpa = none := by
    unfold SwitchHdmDecoderManager.get_decoder_from_hpa SwitchHdmDecoderManager.fresh
    rw [List.find?_eq_none]
    intro x hx
    simp only [List.mem_map] at hx
    obtain ⟨j, _, rfl⟩ := hx
    simp [SwitchHdmDecoder.is_hpa_in_range]
  refine ⟨hdev, ?_, hsw, ?_, ?_⟩
  · simp [DeviceHdmDecoderManager.is_hpa_in_range, hdev]
  · simp [SwitchHdmDecoderManager.get_target, hsw]
  · simp [SwitchHdmDecoderManager.is_hpa_in_range, hsw]

/-- Claim C4: the local-request handler translates each `CacheRequest.type`
to exactly the M2S packet of the spec's table (opcode, meta_field,
meta_value, snp_type); for `SNP_CUR` the meta_value is left at its
`INVALID` initialisation. -/
theorem local_request_m2s_table (cur : CohStateMachine)
    (h : cur.state = .COH_STATE_START) (addr : Nat) (data : Option Nat) :
    HomeAgent.process_upstream_host_to_target_packets cur
        { type := .READ, addr := addr, data := data } =
      .ok ({ cur with state := .COH_STATE_WAIT },
        [.req { opcode := .MEM_RD, meta_field := .NO_OP, meta_value := .ANY,
                snp_type := .NO_OP, addr := addr }], []) ∧
    HomeAgent.process_upstream_host_to_target_packets cur
        { type := .WRITE, addr := addr, data := data } =
      .ok ({ cur with state := .COH_STATE_WAIT },
        [.rwd { opcode := .MEM_WR, meta_field := .NO_OP, meta_value := .ANY,
                snp_type := .NO_OP, addr := addr, data := data }],
        [{ status := .OK }]) ∧
    HomeAgent.process_upstream_host_to_target_packets cur
        { type := .WRITE_BACK, addr := addr, data := data } =
      .ok ({ cur with state := .COH_STATE_WAIT },
        [.rwd { opcode := .MEM_WR, meta_field := .META0_STATE,
                meta_value := .INVALID, snp_type := .NO_OP, addr := addr,
                data := data }],
        [{ status := .OK }]) ∧
    HomeAgent.process_upstream_host_to_target_packets cur
        { type := .SNP_DATA, addr := addr, data := data } =
      .ok ({ cur with state := .COH_STATE_WAIT },
        [.req { opcode := .MEM_RD, meta_field := .META0_STATE,
                meta_value := .SHARED, snp_type := .SNP_DATA, addr := addr }],
        []) ∧
    HomeAgent.process_upstream_host_to_target_packets cur
        { type := .SNP_INV, addr := addr, data := data } =
      .ok ({ cur with state := .COH_STATE_WAIT },
        [.req { opcode := .MEM_INV, meta_field := .META0_STATE,
                meta_value := .ANY, snp_type := .SNP_INV, addr := addr }],
        []) ∧
    HomeAgent.process_upstream_host_to_target_packets cur
        { type := .SNP_CUR, addr := addr, data := data } =
      .ok ({ cur with state := .COH_STATE_WAIT },
        [.req { opcode := .MEM_RD, meta_field := .META0_STATE,
                meta_value := .INVALID, snp_type := .SNP_CUR, addr := addr }],
        []) ∧
    HomeAgent.process_upstream_host_to_target_packets cur
        { type := .UNCACHED_READ, addr := addr, data := data } =
      .ok ({ cur with state := .COH_STATE_WAIT },
        [.req { opcode := .MEM_RD, meta_field := .NO_OP, meta_value := .ANY,
                snp_type := .NO_OP, addr := addr }], []) ∧
    HomeAgent.process_upstream_host_to_target_packets cur
        { type := .UNCACHED_WRITE, addr := addr, data := data } =
      .ok ({ cur with state := .COH_STATE_WAIT },
        [.rwd { opcode := .MEM_WR, meta_field := .NO_OP, meta_value := .ANY,
                snp_type := .NO_OP, addr := addr, data := data }],
        [{ status := .OK }]) := by
  refine ⟨?_, ?_, ?_, ?_, ?_, ?_, ?_, ?_⟩ <;>
    simp [HomeAgent.process_upstream_host_to_target_packets,
      HomeAgent.create_m2s_req_packet, HomeAgent.create_m2s_rwd_packet, h] <;>
    rfl

/-- Witness for `local_request_m2s_table`: the READ row at a concrete
state and address. -/
theorem local_request_m2s_table_witness :
    HomeAgent.process_upstream_host_to_target_packets
        { state := .COH_STATE_START, packet := none, cache_rsp := .BIRSP_I,
          cache_list := [], birsp_sched := false }
        { type := .READ, addr := 0x40, data := none } =
      .ok ({ state := .COH_STATE_WAIT, packet := none, cache_rsp := .BIRSP_I,
             cache_list := [], birsp_sched := false },
        [.req { opcode := .MEM_RD, meta_field := .NO_OP, meta_value := .ANY,
                snp_type := .NO_OP, addr := 0x40 }], []) :=
  (local_request_m2s_table
    { state := .COH_STATE_START, packet := none, cache_rsp := .BIRSP_I,
      cache_list := [], birsp_sched := false } rfl 0x40 none).1

/-- Claim C5: on a device BISnp in state START, a host-cache `RSP_MISS`
answers immediately with `BIRsp_I` and no writeback; any other response
first emits the writeback (MemWr, Meta0State, Invalid, carrying the
snooped data), schedules the BIRsp, and enters WAIT, where the BISnp
handler emits nothing; only the rsp handler, on the writeback's NDR
completion (opcode Cmp), emits the scheduled BIRsp and resets. -/
theorem bisnp_birsp_round_trip (cur : CohStateMachine)
    (h : cur.state = .COH_STATE_START) (pkt : CxlMemS2MBISnpPacket)
    (bridge_rsp : CacheResponse) :
    (bridge_rsp.status = .RSP_MISS →
      HomeAgent.process_cxl_s2m_bisnp_packet cur pkt bridge_rsp =
        ({ cur with state := .COH_STATE_INIT },
         [.birsp { opcode := .BIRSP_I, bi_id := pkt.bi_id,
                   bi_tag := pkt.bi_tag }],
         [HomeAgent.bisnp_to_cache_request pkt])) ∧
    (bridge_rsp.status ≠ .RSP_MISS →
      HomeAgent.process_cxl_s2m_bisnp_packet cur pkt bridge_rsp =
        ({ cur with
            state := .COH_STATE_WAIT
            cache_rsp :=
              if bridge_rsp.status = .RSP_S then .BIRSP_S else .BIRSP_I
            birsp_sched := true },
         [.rwd { opcode := .MEM_WR, meta_field := .META0_STATE,
                 meta_value := .INVALID, snp_type := .NO_OP, addr := pkt.addr,
                 data := bridge_rsp.data }],
         [HomeAgent.bisnp_to_cache_request pkt])) ∧
    (∀ cur' : CohStateMachine, cur'.state = .COH_STATE_WAIT →
      HomeAgent.process_cxl_s2m_bisnp_packet cur' pkt bridge_rsp =
        (cur', [], [])) ∧
    (∀ (cur' : CohStateMachine) (ndr : CxlMemS2MNDRPacket)
        (drs : Option CxlMemS2MDRSPacket),
      cur'.birsp_sched = true → cur'.packet = some pkt → ndr.opcode = .CMP →
      HomeAgent.process_cxl_s2m_rsp_packet cur' ndr drs =
        .ok ({ cur' with birsp_sched := false, state := .COH_STATE_INIT },
          [.birsp { opcode := cur'.cache_rsp, bi_id := pkt.bi_id,
                    bi_tag := pkt.bi_tag }], [])) := by
  refine ⟨?_, ?_, ?_, ?_⟩
  · intro hm
    simp [HomeAgent.process_cxl_s2m_bisnp_packet, h, hm]
  · intro hm
    simp [HomeAgent.process_cxl_s2m_bisnp_packet,
      HomeAgent.create_m2s_rwd_packet, h, hm]
  · intro cur' h'
    simp [HomeAgent.process_cxl_s2m_bisnp_packet, h']
  · intro cur' ndr drs hsched hpkt hop
    cases ndr with
    | mk op mv =>
      simp only at hop
      subst hop
      simp [HomeAgent.process_cxl_s2m_rsp_packet, hsched, hpkt]

/-- Witness for `bisnp_birsp_round_trip`: a catch-all snoop miss at a
concrete state and packet. -/
theorem bisnp_birsp_round_trip_witness :
    HomeAgent.process_cxl_s2m_bisnp_packet
        { state := .COH_STATE_START, packet := none, cache_rsp := .BIRSP_I,
          cache_list := [], birsp_sched := false }
        { opcode := .BISNP_INV, addr := 0x40, bi_id := 1, bi_tag := 2 }
        { status := .RSP_MISS, data := none } =
      ({ state := .COH_STATE_INIT, packet := none, cache_rsp := .BIRSP_I,
         cache_list := [], birsp_sched := false },
       [.birsp { opcode := .BIRSP_I, bi_id := 1, bi_tag := 2 }],
       [{ type := .SNP_INV, addr := 0x40, data := none }]) :=
  (bisnp_birsp_round_trip
    { state := .COH_STATE_START, packet := none, cache_rsp := .BIRSP_I,
      cache_list := [], birsp_sched := false } rfl
    { opcode := .BISNP_INV, addr := 0x40, bi_id := 1, bi_tag := 2 }
    { status := .RSP_MISS, data := none }).1 rfl

/-- Claim C6: CFG requests and non-posted MMIO requests record their tid
(tagged CFG resp. MMIO); a completion consumes the matching entry and goes
to the mailbox the entry names; a duplicate tid on record, or a completion
with an unknown tid, is an error. -/
theorem tlp_tid_matching (t : TlpTable) (tid : Nat) :
    (TlpTable.lookup t tid = none →
      CxlPacketProcessor.process_incoming_cxl_io_packet t ⟨.CFG_RD, tid⟩ =
          .ok ((tid, .CFG) :: t, .CFG) ∧
        CxlPacketProcessor.process_incoming_cxl_io_packet t ⟨.CFG_WR, tid⟩ =
          .ok ((tid, .CFG) :: t, .CFG) ∧
        CxlPacketProcessor.process_incoming_cxl_io_packet t ⟨.MEM_RD, tid⟩ =
          .ok ((tid, .MMIO_) :: t, .MMIO_)) ∧
    (∀ ft, TlpTable.lookup t tid = some ft →
      CxlPacketProcessor.process_incoming_cxl_io_packet t ⟨.CPL, tid⟩ =
          .ok (TlpTable.erase t tid, ft) ∧
        CxlPacketProcessor.process_incoming_cxl_io_packet t ⟨.CPL_D, tid⟩ =
          .ok (TlpTable.erase t tid, ft)) ∧
    (TlpTable.lookup t tid ≠ none →
      CxlPacketProcessor.process_incoming_cxl_io_packet t ⟨.CFG_RD, tid⟩ =
          .error "tid already exists in the TLP table" ∧
        CxlPacketProcessor.process_incoming_cxl_io_packet t ⟨.MEM_RD, tid⟩ =
          .error "tid already exists in the TLP table") ∧
    (TlpTable.lookup t tid = none →
      CxlPacketProcessor.process_incoming_cxl_io_packet t ⟨.CPL, tid⟩ =
        .error "tid is not found in the TLP table") := by
  refine ⟨?_, ?_, ?_, ?_⟩
  · intro hn
    refine ⟨?_, ?_, ?_⟩ <;>
      simp [CxlPacketProcessor.process_incoming_cxl_io_packet,
        CxlPacketProcessor.push_tlp_table_entry,
        CxlPacketProcessor.pop_tlp_table_entry, CxlIoPacket.is_cpl,
        CxlIoPacket.is_cpld, CxlIoPacket.is_cfg, CxlIoPacket.is_mmio,
        CxlIoPacket.is_mem_write, hn] <;> rfl
  · intro ft hs
    cases ft <;>
      simp [CxlPacketProcessor.process_incoming_cxl_io_packet,
        CxlPacketProcessor.pop_tlp_table_entry, CxlIoPacket.is_cpl,
        CxlIoPacket.is_cpld, CxlIoPacket.is_cfg, CxlIoPacket.is_mmio, hs] <;> rfl
  · intro hs
    constructor <;>
      simp [CxlPacketProcessor.process_incoming_cxl_io_packet,
        CxlPacketProcessor.push_tlp_table_entry, CxlIoPacket.is_cpl,
        CxlIoPacket.is_cpld, CxlIoPacket.is_cfg, CxlIoPacket.is_mmio,
        CxlIoPacket.is_mem_write, Option.isSome_iff_ne_none, hs] <;> rfl
  · intro hn
    simp [CxlPacketProcessor.process_incoming_cxl_io_packet,
      CxlPacketProcessor.pop_tlp_table_entry, CxlIoPacket.is_cpl,
      CxlIoPacket.is_cpld, hn]
    rfl

/-- Witness for `tlp_tid_matching`: recording tid 5 for a CFG read in the
empty table. -/
theorem tlp_tid_matching_witness :
    CxlPacketProcessor.process_incoming_cxl_io_packet emptyTlpTable
        ⟨.CFG_RD, 5⟩ = .ok ((5, .CFG) :: emptyTlpTable, .CFG) :=
  ((tlp_tid_matching emptyTlpTable 5).1 rfl).1

/-- Claim C7: the handshake accepts — sends `connection_accept` and marks
the port connected — exactly when the first packet is a sideband
connection request for an in-range, currently disconnected port; in every
other case it sends `connection_reject` and leaves every port untouched. -/
theorem handshake_accept_iff (ports : List SwitchPort) (pkt : HandshakePacket) :
    ((SwitchConnectionManager.handle_client_handshake ports pkt).1 =
        .CONNECTION_ACCEPT ↔
      ∃ i sp, pkt = .sideband_connection_request i ∧ ports[i]? = some sp ∧
        sp.connected = false) ∧
    ((SwitchConnectionManager.handle_client_handshake ports pkt).1 ≠
        .CONNECTION_ACCEPT →
      SwitchConnectionManager.handle_client_handshake ports pkt =
        (.CONNECTION_REJECT, ports)) ∧
    (∀ i sp, pkt = .sideband_connection_request i → ports[i]? = some sp →
      sp.connected = false →
      SwitchConnectionManager.handle_client_handshake ports pkt =
        (.CONNECTION_ACCEPT, ports.set i { connected := true })) := by
  have hwait_ok : ∀ i, SwitchConnectionManager.wait_for_connection_request
      ports pkt = .ok i →
      ∃ sp, pkt = .sideband_connection_request i ∧ ports[i]? = some sp ∧
        sp.connected = false := by
    intro i hok
    cases pkt with
    | non_sideband =>
      simp [SwitchConnectionManager.wait_for_connection_request] at hok
    | sideband_other =>
      simp [SwitchConnectionManager.wait_for_connection_request] at hok
    | sideband_connection_request j =>
      simp only [SwitchConnectionManager.wait_for_connection_request] at hok
      by_cases hlen : ports.length ≤ j
      · rw [if_pos hlen] at hok
        exact absurd hok (by simp)
      · rw [if_neg hlen] at hok
        cases hg : ports[j]? with
        | none => rw [hg] at hok; exact absurd hok (by simp)
        | some sp =>
          rw [hg] at hok
          by_cases hc : sp.connected = true
          · simp [hc] at hok
          · simp [hc] at hok
            subst hok
            exact ⟨sp, rfl, hg, by simpa using hc⟩
  have hvalid : ∀ (i : Nat) (sp : SwitchPort), ports[i]? = some sp →
      sp.connected = false →
      SwitchConnectionManager.wait_for_connection_request ports
        (.sideband_connection_request i) = .ok i := by
    intro i sp hg hc
    have hlen : ¬ ports.length ≤ i := by
      intro hle
      rw [List.getElem?_eq_none hle] at hg
      exact absurd hg (by simp)
    simp only [SwitchConnectionManager.wait_for_connection_request]
    rw [if_neg hlen, hg]
    simp [hc]
  refine ⟨⟨?_, ?_⟩, ?_, ?_⟩
  · intro hacc
    unfold SwitchConnectionManager.handle_client_handshake at hacc
    cases hw : SwitchConnectionManager.wait_for_connection_request ports pkt with
    | ok i =>
      obtain ⟨sp, hpkt, hg, hc⟩ := hwait_ok i hw
      exact ⟨i, sp, hpkt, hg, hc⟩
    | error e =>
      rw [hw] at hacc
      simp at hacc
  · rintro ⟨i, sp, rfl, hg, hc⟩
    unfold SwitchConnectionManager.handle_client_handshake
    rw [hvalid i sp hg hc]
  · intro hne
    unfold SwitchConnectionManager.handle_client_handshake at hne ⊢
    cases hw : SwitchConnectionManager.wait_for_connection_request ports pkt with
    | ok i =>
      rw [hw] at hne
      simp at hne
    | error e => rfl
  · intro i sp hpkt hg hc
    subst hpkt
    unfold SwitchConnectionManager.handle_client_handshake
    rw [hvalid i sp hg hc]
    simp [hg]

/-- Witness for `handshake_accept_iff`: one disconnected port, a request
for index 0 is accepted and the port marked connected. -/
theorem handshake_accept_iff_witness :
    SwitchConnectionManager.handle_client_handshake [{ connected := false }]
        (.sideband_connection_request 0) =
      (.CONNECTION_ACCEPT, [{ connected := true }]) :=
  (handshake_accept_iff [{ connected := false }]
    (.sideband_connection_request 0)).2.2 0 { connected := false } rfl rfl rfl

/-- Claim C8: a read or write memory request whose address or size is not
64-byte aligned fails with `Misaligned`; it is not served and no OK
response is produced. -/
theorem misaligned_memory_request_fails (mem : Nat → Nat)
    (packet : MemoryRequest)
    (h : packet.addr % 64 ≠ 0 ∨ packet.size % 64 ≠ 0) :
    MemoryController.process_memory_request mem packet =
      .error .Misaligned := by
  cases packet with
  | mk ty addr size data =>
    simp only at h
    cases ty <;>
      · unfold MemoryController.process_memory_request FileAccessor.write
          FileAccessor.read
        simp only
        rw [if_pos h]
        rfl

/-- Witness for `misaligned_memory_request_fails`: a read at address 4. -/
theorem misaligned_memory_request_fails_witness :
    MemoryController.process_memory_request (fun _ => 0)
        { type := .READ, addr := 4, size := 64, data := 0 } =
      .error .Misaligned :=
  misaligned_memory_request_fails (fun _ => 0)
    { type := .READ, addr := 4, size := 64, data := 0 } (by decide)

/-- A read loop that sees `n` data packets and then a timeout returns
`none`, having issued exactly one request per consumed event. -/
theorem read_cxl_mem_loop_timeout (events : Nat → CxlMemFifoEvent)
    (addr : Nat) :
    ∀ (n size result j : Nat) (reqs : List Nat),
      (∀ i, i < n → ∃ d, events (j + i) = .packet (.memData d)) →
      events (j + n) = .timeout →
      64 * n < size →
      ∃ rs, HomeAgent.read_cxl_mem_loop events addr size result j reqs =
        .ok (rs, none) ∧ rs.length = reqs.length + n + 1 := by
  intro n
  induction n with
  | zero =>
    intro size result j reqs _ hto hsz
    rw [HomeAgent.read_cxl_mem_loop]
    rw [dif_pos (by omega : 0 < size)]
    have hj : events j = .timeout := by simpa using hto
    rw [hj]
    exact ⟨reqs ++ [addr + (size - 64)], rfl, by simp⟩
  | succ n ih =>
    intro size result j reqs hpk hto hsz
    obtain ⟨d, hd⟩ := hpk 0 (by omega)
    have hj : events j = .packet (.memData d) := by simpa using hd
    rw [HomeAgent.read_cxl_mem_loop]
    rw [dif_pos (by omega : 0 < size)]
    rw [hj]
    have hpk' : ∀ i, i < n → ∃ e, events (j + 1 + i) = .packet (.memData e) := by
      intro i hi
      have := hpk (i + 1) (by omega)
      rwa [show j + (i + 1) = j + 1 + i by omega] at this
    have hto' : events (j + 1 + n) = .timeout := by
      rwa [show j + 1 + n = j + (n + 1) by omega]
    obtain ⟨rs, hrs, hlen⟩ := ih (size - 64) ((result ||| d) <<< (64 * 8))
      (j + 1) (reqs ++ [addr + (size - 64)]) hpk' hto' (by omega)
    refine ⟨rs, hrs, ?_⟩
    simp at hlen
    omega

/-- A write loop that sees `n` acknowledgement packets and then a timeout
returns after emitting exactly `n + 1` chunk writes. -/
theorem write_cxl_mem_loop_timeout (events : Nat → CxlMemFifoEvent)
    (addr : Nat) :
    ∀ (n size value j : Nat) (emitted : List (Nat × Nat)),
      (∀ i, i < n → ∃ p, events (j + i) = .packet p) →
      events (j + n) = .timeout →
      64 * n < size →
      (HomeAgent.write_cxl_mem_loop events addr size value j emitted).length =
        emitted.length + n + 1 := by
  intro n
  induction n with
  | zero =>
    intro size value j emitted _ hto hsz
    rw [HomeAgent.write_cxl_mem_loop]
    rw [dif_pos (by omega : 0 < size)]
    have hj : events j = .timeout := by simpa using hto
    rw [hj]
    simp
  | succ n ih =>
    intro size value j emitted hpk hto hsz
    obtain ⟨p, hp⟩ := hpk 0 (by omega)
    have hj : events j = .packet p := by simpa using hp
    rw [HomeAgent.write_cxl_mem_loop]
    rw [dif_pos (by omega : 0 < size)]
    rw [hj]
    have hpk' : ∀ i, i < n → ∃ q, events (j + 1 + i) = .packet q := by
      intro i hi
      have := hpk (i + 1) (by omega)
      rwa [show j + (i + 1) = j + 1 + i by omega] at this
    have hto' : events (j + 1 + n) = .timeout := by
      rwa [show j + 1 + n = j + (n + 1) by omega]
    have := ih (size - 64) (value >>> (64 * 8)) (j + 1)
      (emitted ++ [(addr + j * 64, value &&& ((1 <<< (64 * 8)) - 1))])
      hpk' hto' (by omega)
    rw [this]
    simp
    omega

/-- Claim C9: the CXL.mem read/write timeout is the 3-second constant; if
the `k`-th await on the downstream fifo times out (after `k` successful
chunk responses), `read_cxl_mem` returns `None` and `write_cxl_mem`
returns having emitted only the first `k + 1` chunk writes — one fifo
event per chunk, so no retry is ever attempted. -/
theorem cxl_mem_timeout_aborts (addr size value k : Nat) (dat : Nat → Nat)
    (ha : addr % 64 = 0) (hs : size % 64 = 0) (hk : 64 * k < size) :
    HomeAgent.cxl_mem_rw_timeout_seconds = 3 ∧
    (∃ reqs, HomeAgent.read_cxl_mem addr size
        (fun i => if i < k then .packet (.memData (dat i)) else .timeout) =
      .ok (reqs, none) ∧ reqs.length = k + 1) ∧
    (∃ wrs, HomeAgent.write_cxl_mem addr size value
        (fun i => if i < k then .packet (.memData (dat i)) else .timeout) =
      .ok wrs ∧ wrs.length = k + 1) := by
  refine ⟨rfl, ?_, ?_⟩
  · unfold HomeAgent.read_cxl_mem
    rw [if_neg (by omega)]
    obtain ⟨rs, hrs, hlen⟩ := read_cxl_mem_loop_timeout
      (fun i => if i < k then .packet (.memData (dat i)) else .timeout) addr k
      size 0 0 []
      (fun i hi => ⟨dat i, by simp [hi]⟩) (by simp) hk
    exact ⟨rs, hrs, by simpa using hlen⟩
  · unfold HomeAgent.write_cxl_mem
    rw [if_neg (by omega)]
    have := write_cxl_mem_loop_timeout
      (fun i => if i < k then .packet (.memData (dat i)) else .timeout) addr k
      size value 0 []
      (fun i hi => ⟨.memData (dat i), by simp [hi]⟩) (by simp) hk
    exact ⟨_, rfl, by simpa using this⟩

/-- Witness for `cxl_mem_timeout_aborts`: a single 64-byte access whose
very first await times out. -/
theorem cxl_mem_timeout_aborts_witness :
    HomeAgent.cxl_mem_rw_timeout_seconds = 3 ∧
    (∃ reqs, HomeAgent.read_cxl_mem 0 64
        (fun i => if i < 0 then .packet (.memData 0) else .timeout) =
      .ok (reqs, none) ∧ reqs.length = 0 + 1) ∧
    (∃ wrs, HomeAgent.write_cxl_mem 0 64 7
        (fun i => if i < 0 then .packet (.memData 0) else .timeout) =
      .ok wrs ∧ wrs.length = 0 + 1) :=
  cxl_mem_timeout_aborts 0 64 7 0 (fun _ => 0) rfl rfl (by decide)

end OpenCis
